import Mathlib

/-!
Verification development for the MCP policy-enforcing proxy
(`src/mcp_proxy.py`).

The file shallowly embeds the pure decision core of the proxy:
the traffic classifier `is_mcp_traffic`, the subject extractor
`build_opa_input`, the two policy-evaluation strategies
`evaluate_policy_cli` / `evaluate_policy_server`, the decision gate
`check_policy`, and the per-request hook `MCPLogger.request`.

External effects (JSON parsing of raw bytes, the `opa` subprocess, the
HTTP POST to the OPA server) are modelled as oracle inputs describing
their outcome; everything the Python code does with those outcomes is
embedded faithfully, including the exceptions that Python raises and
which `except` clauses catch them.  Machine-level exceptions that the
Python code can actually hit (`AttributeError` from calling `.get` on a
non-dict, `TypeError` from testing set membership of an unhashable
value, `RuntimeError` used as the evaluation-error type) are modelled by
the `PyRaise` type; a function that can raise returns `Except PyRaise`.
-/

set_option linter.all false

/-- Parsed JSON values, as produced by Python `json.loads`.
Numbers are modelled as integers (every number appearing in the
protocol constants is an integer). -/
inductive Json where
  | null
  | bool (b : Bool)
  | num (n : Int)
  | str (s : String)
  | arr (elems : List Json)
  | obj (fields : List (String × Json))

/-- Python exceptions relevant to the embedded code.  `runtimeError` is
the `RuntimeError` the evaluators raise as their evaluation-error type
(carrying `str(exc)`); `attributeError` models calling `.get` on a
value that is not a dict; `typeError` models a set-membership test on
an unhashable value. -/
inductive PyRaise where
  | runtimeError (msg : String)
  | attributeError
  | typeError
  deriving DecidableEq

/-- Key lookup in a parsed JSON object (Python `dict` access).  Parsed
JSON objects have unique keys, so first-match lookup coincides with
Python dict semantics. -/
def lookupField : List (String × Json) → String → Option Json
  | [], _ => none
  | (k, v) :: rest, key => if k = key then some v else lookupField rest key

/-- Python `value == "literal"` for a parsed JSON value compared with a
string literal: true exactly when the value is that string. -/
def Json.pyEqStr : Json → String → Bool
  | .str s, t => s == t
  | _, _ => false

/-- Whether a parsed JSON value is hashable in Python (lists and dicts
are not; testing their membership in a set raises `TypeError`). -/
def Json.hashable : Json → Bool
  | .arr _ => false
  | .obj _ => false
  | _ => true

mutual

/-- Python `repr` of a parsed JSON value (used by `str`/f-string
formatting for non-string values). -/
def Json.pyRepr : Json → String
  | .null => "None"
  | .bool true => "True"
  | .bool false => "False"
  | .num n => toString n
  | .str s => "'" ++ s ++ "'"
  | .arr xs => "[" ++ pyReprList xs ++ "]"
  | .obj fs => "\x7b" ++ pyReprFields fs ++ "\x7d"

def pyReprList : List Json → String
  | [] => ""
  | [x] => x.pyRepr
  | x :: rest => x.pyRepr ++ ", " ++ pyReprList rest

def pyReprFields : List (String × Json) → String
  | [] => ""
  | [(k, v)] => "'" ++ k ++ "': " ++ v.pyRepr
  | (k, v) :: rest => "'" ++ k ++ "': " ++ v.pyRepr ++ ", " ++ pyReprFields rest

end

/-- Python `str` of a parsed JSON value, as used by f-string
interpolation: a string is used verbatim, everything else through
`repr`. -/
def Json.pyStr : Json → String
  | .str s => s
  | j => j.pyRepr

/-- Python `value.get(key)` (default `None`): returns the looked-up
value as `some`/`none` when `value` is a dict, raises `AttributeError`
otherwise. -/
def pyGet (j : Json) (key : String) : Except PyRaise (Option Json) :=
  match j with
  | .obj fs => .ok (lookupField fs key)
  | _ => .error .attributeError

/-- Python `value.get(key, dflt)`: the looked-up value or the default
when `value` is a dict, `AttributeError` otherwise. -/
def pyGetD (j : Json) (key : String) (dflt : Json) : Except PyRaise Json :=
  match j with
  | .obj fs => .ok ((lookupField fs key).getD dflt)
  | _ => .error .attributeError

/-- The fixed MCP method enumeration `MCP_METHODS` from the source, in
source order. -/
def MCP_METHODS : List String := [
  "initialize",
  "initialized",
  "ping",
  "notifications/cancelled",
  "notifications/progress",
  "notifications/message",
  "notifications/resources/updated",
  "notifications/resources/list_changed",
  "notifications/tools/list_changed",
  "notifications/prompts/list_changed",
  "resources/list",
  "resources/read",
  "resources/subscribe",
  "resources/unsubscribe",
  "tools/list",
  "tools/call",
  "prompts/list",
  "prompts/get",
  "logging/setLevel",
  "sampling/createMessage",
  "completion/complete",
  "roots/list"
]

/-- One HTTP message body as the classifier sees it: whether the byte
string is non-empty (Python truthiness of `bytes`), and the result of
`json.loads` on it (`none` = `JSONDecodeError`/`UnicodeDecodeError`).
`json.loads` is deterministic, so one field serves every parse of the
same content. -/
structure Content where
  nonempty : Bool
  parsed : Option Json

/-- `is_mcp_traffic(content)`.  Returns `.ok` with the boolean the
Python function returns; `.error .typeError` when the Python function
raises (membership test `method in MCP_METHODS` with an unhashable
`method` value, which the `except (json.JSONDecodeError,
UnicodeDecodeError)` clause does not catch). -/
def is_mcp_traffic (content : Content) : Except PyRaise Bool :=
  if content.nonempty = false then .ok false
  else
    match content.parsed with
    | none => .ok false
    | some (Json.obj fs) =>
      if (lookupField fs "jsonrpc").isSome
          && ((lookupField fs "jsonrpc").getD Json.null).pyEqStr "2.0" then
        let method := (lookupField fs "method").getD (Json.str "")
        if method.hashable = false then .error .typeError
        else if (match method with
                 | Json.str m => MCP_METHODS.contains m
                 | _ => false)
                || (lookupField fs "result").isSome
                || (lookupField fs "error").isSome then
          .ok true
        else .ok false
      else .ok false
    | some (Json.arr (first :: _)) =>
      match first with
      | Json.obj gs => .ok (((lookupField gs "jsonrpc").getD Json.null).pyEqStr "2.0")
      | _ => .ok false
    | some _ => .ok false

/-- The OPA input (decision subject) built from a `tools/call` body:
`\x7b"tool_name": params.get("name", ""), "tool_input":
params.get("arguments", \x7b\x7d)\x7d`. -/
structure OpaInput where
  tool_name : Json
  tool_input : Json

/-- `build_opa_input(body)`: `None` unless `body.get("method") ==
"tools/call"`, else the subject with defaults.  `.error` models the
`AttributeError` Python raises when `body` is not a dict, or when
`params` is present but not a dict. -/
def build_opa_input (body : Json) : Except PyRaise (Option OpaInput) :=
  match pyGet body "method" with
  | .error e => .error e
  | .ok methodVal =>
    if ((methodVal.getD Json.null).pyEqStr "tools/call") = false then .ok none
    else
      match pyGet body "params" with
      | .error e => .error e
      | .ok paramsVal =>
        let params := paramsVal.getD (Json.obj [])
        match pyGetD params "name" (Json.str "") with
        | .error e => .error e
        | .ok name =>
          match pyGetD params "arguments" (Json.obj []) with
          | .error e => .error e
          | .ok args => .ok (some ⟨name, args⟩)

/-- Outcome of the `subprocess.run` call in `evaluate_policy_cli`:
the `opa` binary missing (`FileNotFoundError`), the 5s timeout
(`subprocess.TimeoutExpired`), or a completed process with its return
code, the result of `json.loads` on its stdout (`.error` carries
`str(exc)` of the `JSONDecodeError`), and its stderr. -/
inductive SubprocessOutcome where
  | fileNotFound
  | timeoutExpired
  | completed (returncode : Int) (stdout_json : Except String Json) (stderr : String)

/-- Outcome of the `urllib.request.urlopen` call in
`evaluate_policy_server`: a `urllib.error.URLError` with its text, or a
response whose body was read, with the result of `json.loads` on it. -/
inductive HttpOutcome where
  | urlError (detail : String)
  | response (body_json : Except String Json)

/-- `evaluate_policy_cli`: turns the subprocess outcome into the parsed
decision, raising `RuntimeError` on binary-not-found, timeout, non-zero
exit, or unparseable stdout. -/
def evaluate_policy_cli (outcome : SubprocessOutcome) : Except PyRaise Json :=
  match outcome with
  | .fileNotFound => .error (.runtimeError "opa binary not found on PATH")
  | .timeoutExpired => .error (.runtimeError "opa eval timed out after 5s")
  | .completed returncode stdout_json stderr =>
    if returncode ≠ 0 then
      .error (.runtimeError
        ("opa eval failed (rc=" ++ toString returncode ++ "): " ++ stderr.trim))
    else
      match stdout_json with
      | .error exc => .error (.runtimeError ("Failed to parse opa output: " ++ exc))
      | .ok decision => .ok decision

/-- `evaluate_policy_server`: turns the HTTP outcome into the parsed
decision, raising `RuntimeError` on `URLError` or unparseable body;
on success returns `resp_body.get("result", resp_body)`, which raises
`AttributeError` when the parsed body is not a dict. -/
def evaluate_policy_server (outcome : HttpOutcome) : Except PyRaise Json :=
  match outcome with
  | .urlError detail => .error (.runtimeError ("OPA server request failed: " ++ detail))
  | .response (.error exc) =>
    .error (.runtimeError ("Failed to parse OPA server response: " ++ exc))
  | .response (.ok resp_body) =>
    match resp_body with
    | Json.obj fs => .ok ((lookupField fs "result").getD (Json.obj fs))
    | _ => .error .attributeError

/-- The configuration strings read once from the environment:
`OPA_MODE` (`MCP_OPA_MODE`, default "cli") and `POLICY_FAIL_MODE`
(`MCP_POLICY_FAIL_MODE`, default "closed"). -/
structure Config where
  opa_mode : String
  policy_fail_mode : String

/-- The strategy dispatch inside `check_policy`:
`evaluate_policy_server` when `OPA_MODE == "server"`, else
`evaluate_policy_cli`. -/
def policy_eval (cfg : Config) (cli : SubprocessOutcome) (srv : HttpOutcome) :
    Except PyRaise Json :=
  if cfg.opa_mode == "server" then evaluate_policy_server srv
  else evaluate_policy_cli cli

/-- `check_policy(body)`: `.ok none` = allow, `.ok (some msg)` = deny
with message `msg`.  Only `RuntimeError` from the evaluator is caught
(`except RuntimeError`) and converted per the fail mode; the decision
interpretation (`decision.get`, `hook_output.get`) happens outside the
`try` block, so an `AttributeError` there propagates. -/
def check_policy (cfg : Config) (cli : SubprocessOutcome) (srv : HttpOutcome)
    (body : Json) : Except PyRaise (Option String) :=
  match build_opa_input body with
  | .error e => .error e
  | .ok none => .ok none
  | .ok (some _) =>
    match policy_eval cfg cli srv with
    | .error (.runtimeError exc) =>
      if cfg.policy_fail_mode == "open" then .ok none
      else .ok (some ("Policy evaluation error (fail-closed): " ++ exc))
    | .error .attributeError => .error .attributeError
    | .error .typeError => .error .typeError
    | .ok decision =>
      match pyGet decision "hookSpecificOutput" with
      | .error e => .error e
      | .ok hookVal =>
        let hook_output := hookVal.getD (Json.obj [])
        match pyGetD hook_output "permissionDecision" (Json.str "deny") with
        | .error e => .error e
        | .ok permission =>
          if permission.pyEqStr "allow" then .ok none
          else
            match pyGetD hook_output "permissionDecisionReason"
                (Json.str "Request denied by policy.") with
            | .error e => .error e
            | .ok reason => .ok (some ("Policy violation: " ++ reason.pyStr))

/-- The JSON-RPC error object built in `MCPLogger.request` for a denied
request, field order as in the source. -/
def deny_error_response (idVal : Json) (policy_error : String) : Json :=
  Json.obj [
    ("jsonrpc", Json.str "2.0"),
    ("id", idVal),
    ("error", Json.obj [
      ("code", Json.num (-32600)),
      ("message", Json.str policy_error)])]

/-- An HTTP response as built by `http.Response.make`.  The `body`
field holds the parsed form of the serialized JSON payload
(`json.dumps` round-trips the object). -/
structure HttpResponse where
  status_code : Nat
  body : Json
  headers : List (String × String)

/-- `http.Response.make(200, json.dumps(error_response),
\x7b"Content-Type": "application/json"\x7d)` for a denied request. -/
def synthesize_deny (idVal : Json) (policy_error : String) : HttpResponse :=
  ⟨200, deny_error_response idVal policy_error, [("Content-Type", "application/json")]⟩

/-- The observable outcome of one `MCPLogger.request` hook invocation:
the request counter afterwards, the response set on the flow (if any;
`none` means the request is forwarded unchanged), and the exception
propagating out of the hook (if any). -/
structure HookResult where
  request_count : Nat
  response : Option HttpResponse
  raised : Option PyRaise

/-- `MCPLogger.request(flow)`: pass non-MCP traffic through untouched;
for MCP traffic, bump the counter, re-parse the body, run the policy
check, and either forward or attach the synthesized deny response.
Only `json.JSONDecodeError`/`UnicodeDecodeError` are caught around the
policy check; everything else propagates out of the hook. -/
def mcpLogger_request (cfg : Config) (cli : SubprocessOutcome) (srv : HttpOutcome)
    (request_count : Nat) (content : Content) : HookResult :=
  match is_mcp_traffic content with
  | .error e => ⟨request_count, none, some e⟩
  | .ok false => ⟨request_count, none, none⟩
  | .ok true =>
    match content.parsed with
    | none => ⟨request_count + 1, none, none⟩
    | some body =>
      match check_policy cfg cli srv body with
      | .error e => ⟨request_count + 1, none, some e⟩
      | .ok none => ⟨request_count + 1, none, none⟩
      | .ok (some policy_error) =>
        match pyGet body "id" with
        | .error e => ⟨request_count + 1, none, some e⟩
        | .ok idVal =>
          ⟨request_count + 1,
           some (synthesize_deny (idVal.getD Json.null) policy_error), none⟩

/-! ## Helper lemmas -/

/-- A `getD Json.null` value equals a string literal (in the Python
`==` sense) exactly when the underlying optional value is that
string. -/
lemma pyEqStr_getD_null_iff (o : Option Json) (t : String) :
    ((o.getD Json.null).pyEqStr t) = true ↔ o = some (Json.str t) := by
  cases o with
  | none => simp [Json.pyEqStr]
  | some v => cases v <;> simp [Json.pyEqStr]

/-- Same as `pyEqStr_getD_null_iff` for any default that is not itself
equal to the compared literal. -/
lemma pyEqStr_getD_iff (o : Option Json) (d : Json) (t : String)
    (hd : d.pyEqStr t = false) :
    ((o.getD d).pyEqStr t) = true ↔ o = some (Json.str t) := by
  cases o with
  | none => simp [hd]
  | some v => cases v <;> simp [Json.pyEqStr]

/-- The classifier's `"jsonrpc" in body and body.get("jsonrpc") ==
"2.0"` condition holds exactly when the key maps to the string
`"2.0"`. -/
lemma jsonrpc_cond_iff (o : Option Json) :
    (o.isSome && ((o.getD Json.null).pyEqStr "2.0")) = true ↔
      o = some (Json.str "2.0") := by
  cases o with
  | none => simp
  | some v => cases v <;> simp [Json.pyEqStr]

/-- A subject is only ever extracted from a JSON object body: any
other body shape makes `build_opa_input` raise. -/
lemma build_opa_input_ok_some_obj {body : Json} {inp : OpaInput}
    (h : build_opa_input body = .ok (some inp)) :
    ∃ fs, body = Json.obj fs := by
  cases body with
  | obj fs => exact ⟨fs, rfl⟩
  | null => simp [build_opa_input, pyGet] at h
  | bool b => simp [build_opa_input, pyGet] at h
  | num n => simp [build_opa_input, pyGet] at h
  | str s => simp [build_opa_input, pyGet] at h
  | arr xs => simp [build_opa_input, pyGet] at h

/-- A deny outcome of `check_policy` implies the request body was a
JSON object. -/
lemma check_policy_ok_some_obj {cfg : Config} {cli : SubprocessOutcome}
    {srv : HttpOutcome} {body : Json} {r : String}
    (h : check_policy cfg cli srv body = .ok (some r)) :
    ∃ fs, body = Json.obj fs := by
  unfold check_policy at h
  cases hb : build_opa_input body with
  | error e => rw [hb] at h; cases h
  | ok v =>
    cases v with
    | none => rw [hb] at h; cases h
    | some inp => exact build_opa_input_ok_some_obj hb

/-! ## C1: fail-open / fail-closed handling of evaluation errors -/

/-- C1: for every decision subject and every evaluator failure
(`RuntimeError` from either strategy, covering binary-not-found,
non-zero exit, timeout, unparseable output and network failure),
`check_policy` returns a deny message when the fail mode is `"closed"`
and `None` (allow) when it is `"open"`, regardless of which strategy
was selected by the configuration. -/
theorem check_policy_fail_mode_spec (cfg : Config) (cli : SubprocessOutcome)
    (srv : HttpOutcome) (body : Json) (inp : OpaInput) (msg : String)
    (hsub : build_opa_input body = .ok (some inp))
    (herr : policy_eval cfg cli srv = .error (.runtimeError msg)) :
    (cfg.policy_fail_mode = "closed" →
      check_policy cfg cli srv body =
        .ok (some ("Policy evaluation error (fail-closed): " ++ msg))) ∧
    (cfg.policy_fail_mode = "open" →
      check_policy cfg cli srv body = .ok none) := by
  unfold check_policy
  rw [hsub, herr]
  constructor
  · intro hc; rw [hc]; rfl
  · intro ho; rw [ho]; rfl

/-- Witness for C1: the CLI strategy failing with the binary missing
under fail-closed denies; the server strategy failing with a transport
error under fail-open allows. -/
theorem check_policy_fail_mode_spec_witness :
    check_policy ⟨"cli", "closed"⟩ .fileNotFound (.urlError "connection refused")
      (Json.obj [("method", Json.str "tools/call")]) =
      .ok (some "Policy evaluation error (fail-closed): opa binary not found on PATH") ∧
    check_policy ⟨"server", "open"⟩ .fileNotFound (.urlError "connection refused")
      (Json.obj [("method", Json.str "tools/call")]) = .ok none :=
  ⟨(check_policy_fail_mode_spec ⟨"cli", "closed"⟩ .fileNotFound
      (.urlError "connection refused") (Json.obj [("method", Json.str "tools/call")])
      ⟨Json.str "", Json.obj []⟩ "opa binary not found on PATH" rfl rfl).1 rfl,
   (check_policy_fail_mode_spec ⟨"server", "open"⟩ .fileNotFound
      (.urlError "connection refused") (Json.obj [("method", Json.str "tools/call")])
      ⟨Json.str "", Json.obj []⟩ "OPA server request failed: connection refused"
      rfl rfl).2 rfl⟩

/-! ## C2: the per-request pipeline can raise on a batched body -/

/-- C2: the request hook does NOT resolve every classified exchange.
A batched body `[ \x7b"jsonrpc": "2.0"\x7d ]` is classified as MCP
traffic, but `check_policy` then calls `.get` on the parsed list
(`build_opa_input(body)` with a list body), raising `AttributeError`,
which no `except` clause catches: the counter is incremented, no
response is synthesized, and the exception propagates out of the
hook. -/
theorem request_hook_raises_on_batched_body :
    mcpLogger_request ⟨"cli", "closed"⟩ .fileNotFound (.urlError "") 0
      ⟨true, some (Json.arr [Json.obj [("jsonrpc", Json.str "2.0")]])⟩ =
      ⟨1, none, some .attributeError⟩ := rfl

/-! ## C8: non-MCP traffic passes through unchanged -/

/-- C8: whenever the classifier returns `false` (including every
unparseable byte string), the request hook leaves the counter
unchanged, sets no response and raises nothing, so the exchange is
forwarded untouched. -/
theorem non_mcp_passthrough (cfg : Config) (cli : SubprocessOutcome)
    (srv : HttpOutcome) (request_count : Nat) (content : Content)
    (h : is_mcp_traffic content = .ok false) :
    mcpLogger_request cfg cli srv request_count content =
      ⟨request_count, none, none⟩ := by
  unfold mcpLogger_request
  rw [h]

/-- Witness for C8: an unparseable body at counter value 7. -/
theorem non_mcp_passthrough_witness :
    mcpLogger_request ⟨"cli", "closed"⟩ .fileNotFound (.urlError "") 7
      ⟨true, none⟩ = ⟨7, none, none⟩ :=
  non_mcp_passthrough ⟨"cli", "closed"⟩ .fileNotFound (.urlError "") 7
    ⟨true, none⟩ rfl

/-! ## C9: the known-method enumeration -/

/-- C9 counterexample: `MCP_METHODS` has 22 entries, not 23. -/
theorem mcp_methods_count : MCP_METHODS.length = 22 ∧ MCP_METHODS.length ≠ 23 := by
  decide

/-- C9 (amended): the known-method set is a fixed duplicate-free
enumeration of 22 method names spanning initialization, notification,
resource, tool, prompt, logging, sampling, completion and roots
operations. -/
theorem mcp_methods_enumeration :
    MCP_METHODS.length = 22 ∧ MCP_METHODS.Nodup ∧
    "initialize" ∈ MCP_METHODS ∧ "initialized" ∈ MCP_METHODS ∧
    "ping" ∈ MCP_METHODS ∧ "notifications/progress" ∈ MCP_METHODS ∧
    "resources/read" ∈ MCP_METHODS ∧ "tools/call" ∈ MCP_METHODS ∧
    "prompts/get" ∈ MCP_METHODS ∧ "logging/setLevel" ∈ MCP_METHODS ∧
    "sampling/createMessage" ∈ MCP_METHODS ∧
    "completion/complete" ∈ MCP_METHODS ∧ "roots/list" ∈ MCP_METHODS := by
  decide

/-! ## C10: configuration strings are matched exactly -/

/-- C10: any evaluation-mode value other than exactly `"server"`
selects the CLI strategy, and any fail-mode value other than exactly
`"open"` (e.g. `"OPEN"`) treats an evaluator failure as fail-closed
and denies. -/
theorem config_exact_string_matching (cfg : Config) (cli : SubprocessOutcome)
    (srv : HttpOutcome) (body : Json) (inp : OpaInput) (msg : String)
    (hsub : build_opa_input body = .ok (some inp))
    (hmode : cfg.opa_mode ≠ "server")
    (hfail : cfg.policy_fail_mode ≠ "open")
    (herr : evaluate_policy_cli cli = .error (.runtimeError msg)) :
    policy_eval cfg cli srv = evaluate_policy_cli cli ∧
    check_policy cfg cli srv body =
      .ok (some ("Policy evaluation error (fail-closed): " ++ msg)) := by
  have h1 : (cfg.opa_mode == "server") = false := beq_eq_false_iff_ne.mpr hmode
  have h2 : (cfg.policy_fail_mode == "open") = false := beq_eq_false_iff_ne.mpr hfail
  have hpe : policy_eval cfg cli srv = evaluate_policy_cli cli := by
    unfold policy_eval; rw [h1]; rfl
  refine ⟨hpe, ?_⟩
  unfold check_policy
  rw [hsub, hpe, herr, h2]
  rfl

/-- Witness for C10: a misspelled mode `"sever"` and a wrongly
capitalized fail mode `"OPEN"` still run the CLI strategy and deny on
failure. -/
theorem config_exact_string_matching_witness :
    check_policy ⟨"sever", "OPEN"⟩ .fileNotFound (.urlError "")
      (Json.obj [("method", Json.str "tools/call")]) =
      .ok (some "Policy evaluation error (fail-closed): opa binary not found on PATH") :=
  (config_exact_string_matching ⟨"sever", "OPEN"⟩ .fileNotFound (.urlError "")
    (Json.obj [("method", Json.str "tools/call")]) ⟨Json.str "", Json.obj []⟩
    "opa binary not found on PATH" rfl (by decide) (by decide) rfl).2

/-! ## C3: the synthesized deny response -/

/-- C3: every denied request is answered with an HTTP 200 response
with header `Content-Type: application/json` whose (parsed) body is
`\x7b"jsonrpc": "2.0", "id": <original id>, "error": \x7b"code": -32600,
"message": <deny reason>\x7d\x7d`, the deny reason carried verbatim. -/
theorem denied_request_synthesized_response (cfg : Config) (cli : SubprocessOutcome)
    (srv : HttpOutcome) (request_count : Nat) (content : Content) (body : Json)
    (reason : String)
    (hmcp : is_mcp_traffic content = .ok true)
    (hparse : content.parsed = some body)
    (hdeny : check_policy cfg cli srv body = .ok (some reason)) :
    ∃ idVal : Option Json, pyGet body "id" = .ok idVal ∧
      mcpLogger_request cfg cli srv request_count content =
        ⟨request_count + 1, some (synthesize_deny (idVal.getD Json.null) reason), none⟩ ∧
      synthesize_deny (idVal.getD Json.null) reason =
        ⟨200,
         Json.obj [("jsonrpc", Json.str "2.0"), ("id", idVal.getD Json.null),
           ("error", Json.obj [("code", Json.num (-32600)),
             ("message", Json.str reason)])],
         [("Content-Type", "application/json")]⟩ := by
  obtain ⟨fs, rfl⟩ := check_policy_ok_some_obj hdeny
  refine ⟨lookupField fs "id", rfl, ?_, rfl⟩
  unfold mcpLogger_request
  rw [hmcp, hparse]
  dsimp only
  rw [hdeny]
  rfl

/-- Witness for C3: a denied `tools/call` with `id = 42` (fail-closed,
`opa` binary missing) gets the exact synthesized response. -/
theorem denied_request_synthesized_response_witness :
    ∃ idVal : Option Json,
      pyGet (Json.obj [("jsonrpc", Json.str "2.0"), ("id", Json.num 42),
        ("method", Json.str "tools/call")]) "id" = .ok idVal ∧
      mcpLogger_request ⟨"cli", "closed"⟩ .fileNotFound (.urlError "") 3
        ⟨true, some (Json.obj [("jsonrpc", Json.str "2.0"), ("id", Json.num 42),
          ("method", Json.str "tools/call")])⟩ =
        ⟨4, some (synthesize_deny (idVal.getD Json.null)
          "Policy evaluation error (fail-closed): opa binary not found on PATH"), none⟩ ∧
      synthesize_deny (idVal.getD Json.null)
          "Policy evaluation error (fail-closed): opa binary not found on PATH" =
        ⟨200,
         Json.obj [("jsonrpc", Json.str "2.0"), ("id", idVal.getD Json.null),
           ("error", Json.obj [("code", Json.num (-32600)),
             ("message", Json.str
               "Policy evaluation error (fail-closed): opa binary not found on PATH")])],
         [("Content-Type", "application/json")]⟩ :=
  denied_request_synthesized_response ⟨"cli", "closed"⟩ .fileNotFound (.urlError "") 3
    ⟨true, some (Json.obj [("jsonrpc", Json.str "2.0"), ("id", Json.num 42),
      ("method", Json.str "tools/call")])⟩
    (Json.obj [("jsonrpc", Json.str "2.0"), ("id", Json.num 42),
      ("method", Json.str "tools/call")])
    "Policy evaluation error (fail-closed): opa binary not found on PATH"
    rfl rfl rfl

/-! ## C7: the two evaluation strategies -/

/-- C7 counterexample: a remote response whose body parses as the JSON
array `[1]` (so `"result"` is absent) is neither returned as the raw
decision nor converted to an `EvaluationError`: `resp_body.get` raises
`AttributeError`. -/
theorem evaluate_policy_server_raises_on_nonobject_body :
    evaluate_policy_server (.response (.ok (Json.arr [Json.num 1]))) =
      .error .attributeError ∧
    ∀ j, evaluate_policy_server (.response (.ok (Json.arr [Json.num 1]))) ≠ .ok j :=
  ⟨rfl, fun _ h => Except.noConfusion h⟩

/-- C7 (amended): the CLI strategy raises `RuntimeError` exactly on
binary-not-found, timeout, non-zero exit or unparseable stdout, and
returns the parsed stdout verbatim otherwise; the remote strategy
raises `RuntimeError` exactly on transport failure or an unparseable
body, returns the parsed body's `"result"` member (or the whole body
when absent) when that body is a JSON object, and raises
`AttributeError` on a non-object body. -/
theorem evaluator_characterization :
    (∀ (outcome : SubprocessOutcome) (j : Json),
      evaluate_policy_cli outcome = .ok j ↔
        ∃ stderr, outcome = .completed 0 (.ok j) stderr) ∧
    (∀ outcome : SubprocessOutcome,
      (∃ msg, evaluate_policy_cli outcome = .error (.runtimeError msg)) ↔
        (outcome = .fileNotFound ∨ outcome = .timeoutExpired ∨
          ∃ rc out stderr, outcome = .completed rc out stderr ∧
            (rc ≠ 0 ∨ ∃ exc, out = .error exc))) ∧
    (∀ outcome : SubprocessOutcome,
      evaluate_policy_cli outcome ≠ .error .attributeError ∧
      evaluate_policy_cli outcome ≠ .error .typeError) ∧
    (∀ detail, evaluate_policy_server (.urlError detail) =
      .error (.runtimeError ("OPA server request failed: " ++ detail))) ∧
    (∀ exc, evaluate_policy_server (.response (.error exc)) =
      .error (.runtimeError ("Failed to parse OPA server response: " ++ exc))) ∧
    (∀ gs, evaluate_policy_server (.response (.ok (Json.obj gs))) =
      .ok ((lookupField gs "result").getD (Json.obj gs))) ∧
    (∀ j, (∀ gs, j ≠ Json.obj gs) →
      evaluate_policy_server (.response (.ok j)) = .error .attributeError) := by
  refine ⟨?_, ?_, ?_, fun d => rfl, fun e => rfl, fun gs => rfl, ?_⟩
  · intro outcome j
    cases outcome with
    | fileNotFound => simp [evaluate_policy_cli]
    | timeoutExpired => simp [evaluate_policy_cli]
    | completed rc out stderr =>
      by_cases hrc : rc = 0
      · subst hrc
        cases out with
        | error e => simp [evaluate_policy_cli]
        | ok dj => simp [evaluate_policy_cli]
      · simp [evaluate_policy_cli, hrc]
  · intro outcome
    cases outcome with
    | fileNotFound => simp [evaluate_policy_cli]
    | timeoutExpired => simp [evaluate_policy_cli]
    | completed rc out stderr =>
      by_cases hrc : rc = 0
      · subst hrc
        cases out with
        | error e =>
          simp only [evaluate_policy_cli]
          simp
          exact ⟨0, .error e, ⟨rfl, rfl⟩, Or.inr ⟨e, rfl⟩⟩
        | ok dj => simp [evaluate_policy_cli]
      · simp only [evaluate_policy_cli]
        simp [hrc]
        exact ⟨rc, out, ⟨rfl, rfl⟩, Or.inl hrc⟩
  · intro outcome
    cases outcome with
    | fileNotFound => simp [evaluate_policy_cli]
    | timeoutExpired => simp [evaluate_policy_cli]
    | completed rc out stderr =>
      by_cases hrc : rc = 0
      · subst hrc
        cases out with
        | error e => simp [evaluate_policy_cli]
        | ok dj => simp [evaluate_policy_cli]
      · simp [evaluate_policy_cli, hrc]
  · intro j hj
    cases j with
    | obj gs => exact absurd rfl (hj gs)
    | null => rfl
    | bool b => rfl
    | num n => rfl
    | str s => rfl
    | arr xs => rfl

/-- Witness for C7 (amended): the CLI strategy never raises anything
but `RuntimeError`, and a non-object remote body raises
`AttributeError`. -/
theorem evaluator_characterization_witness :
    evaluate_policy_cli (.completed 2 (.ok Json.null) "boom") ≠ .error .attributeError ∧
    evaluate_policy_server (.response (.ok (Json.num 7))) = .error .attributeError :=
  ⟨(evaluator_characterization.2.2.1 (.completed 2 (.ok Json.null) "boom")).1,
   evaluator_characterization.2.2.2.2.2.2 (Json.num 7) (fun gs h => Json.noConfusion h)⟩

/-! ## C6: the subject extractor -/

/-- Negative form of `pyEqStr_getD_null_iff`. -/
lemma pyEqStr_getD_null_false_iff (o : Option Json) (t : String) :
    ((o.getD Json.null).pyEqStr t) = false ↔ o ≠ some (Json.str t) := by
  constructor
  · intro h hcontra
    rw [(pyEqStr_getD_null_iff o t).mpr hcontra] at h
    cases h
  · intro h
    cases hb : ((o.getD Json.null).pyEqStr t) with
    | false => rfl
    | true => exact absurd ((pyEqStr_getD_null_iff o t).mp hb) h

/-- Computation of `build_opa_input` on a `tools/call` object body:
the shape of `params` decides between a subject and an
`AttributeError`. -/
lemma build_opa_input_obj_pos (fs : List (String × Json))
    (hm : lookupField fs "method" = some (Json.str "tools/call")) :
    build_opa_input (Json.obj fs) =
      match (lookupField fs "params").getD (Json.obj []) with
      | Json.obj ps =>
        Except.ok (some ⟨(lookupField ps "name").getD (Json.str ""),
                         (lookupField ps "arguments").getD (Json.obj [])⟩)
      | _ => Except.error PyRaise.attributeError := by
  simp only [build_opa_input, pyGet, hm]
  simp only [Option.getD_some, Json.pyEqStr, beq_self_eq_true]
  cases hp : (lookupField fs "params").getD (Json.obj []) <;>
    simp [pyGetD, hp]

/-- Computation of `build_opa_input` on an object body whose `method`
is not the string `"tools/call"`: no subject. -/
lemma build_opa_input_obj_neg (fs : List (String × Json))
    (hm : lookupField fs "method" ≠ some (Json.str "tools/call")) :
    build_opa_input (Json.obj fs) = Except.ok none := by
  have hfalse := (pyEqStr_getD_null_false_iff (lookupField fs "method")
    "tools/call").mpr hm
  simp only [build_opa_input, pyGet, hfalse]
  rfl

/-- C6 counterexample: a `tools/call` body whose `params` member is
the number 5 makes `build_opa_input` raise `AttributeError` instead of
returning a subject. -/
theorem build_opa_input_raises_on_nonobject_params :
    build_opa_input (Json.obj [("method", Json.str "tools/call"),
      ("params", Json.num 5)]) = .error .attributeError ∧
    ∀ r, build_opa_input (Json.obj [("method", Json.str "tools/call"),
      ("params", Json.num 5)]) ≠ .ok r :=
  ⟨rfl, fun _ h => Except.noConfusion h⟩

/-- C6 (amended): on a JSON object body, `build_opa_input` returns
`None` exactly when `method` is not the string `"tools/call"`; on a
`tools/call` body it returns the subject with the documented defaults
when `params` is absent or an object, and raises `AttributeError` when
`params` is present but not an object. -/
theorem build_opa_input_characterization (fs : List (String × Json)) :
    (build_opa_input (Json.obj fs) = .ok none ↔
      lookupField fs "method" ≠ some (Json.str "tools/call")) ∧
    (lookupField fs "method" = some (Json.str "tools/call") →
      (lookupField fs "params" = none →
        build_opa_input (Json.obj fs) = .ok (some ⟨Json.str "", Json.obj []⟩)) ∧
      (∀ ps, lookupField fs "params" = some (Json.obj ps) →
        build_opa_input (Json.obj fs) =
          .ok (some ⟨(lookupField ps "name").getD (Json.str ""),
                     (lookupField ps "arguments").getD (Json.obj [])⟩)) ∧
      (∀ v, lookupField fs "params" = some v → (∀ ps, v ≠ Json.obj ps) →
        build_opa_input (Json.obj fs) = .error .attributeError)) := by
  constructor
  · by_cases hm : lookupField fs "method" = some (Json.str "tools/call")
    · rw [build_opa_input_obj_pos fs hm]
      constructor
      · intro h
        exfalso
        cases hp : (lookupField fs "params").getD (Json.obj []) <;>
          rw [hp] at h <;> simp at h
      · intro h; exact absurd hm h
    · rw [build_opa_input_obj_neg fs hm]
      simp [hm]
  · intro hm
    rw [build_opa_input_obj_pos fs hm]
    refine ⟨?_, ?_, ?_⟩
    · intro hp
      rw [hp]
      rfl
    · intro ps hp
      rw [hp]
      rfl
    · intro v hp hv
      rw [hp]
      cases v with
      | obj ps => exact absurd rfl (hv ps)
      | null => rfl
      | bool b => rfl
      | num n => rfl
      | str s => rfl
      | arr xs => rfl

/-- Witness for C6 (amended): a `tools/call` body with
`params.name = "t"` and no `arguments` yields the subject with the
empty-object default. -/
theorem build_opa_input_characterization_witness :
    build_opa_input (Json.obj [("method", Json.str "tools/call"),
      ("params", Json.obj [("name", Json.str "t")])]) =
      .ok (some ⟨Json.str "t", Json.obj []⟩) :=
  ((build_opa_input_characterization [("method", Json.str "tools/call"),
      ("params", Json.obj [("name", Json.str "t")])]).2 rfl).2.1
    [("name", Json.str "t")] rfl

/-! ## C5: interpretation of a successful decision -/

/-- C5 counterexample: a successful evaluation whose parsed decision
is the JSON string `"ok"` (which has no `hookSpecificOutput` member)
does not yield `Deny`: `decision.get` raises `AttributeError`. -/
theorem check_policy_raises_on_nonobject_decision :
    check_policy ⟨"cli", "closed"⟩ (.completed 0 (.ok (Json.str "ok")) "")
      (.urlError "") (Json.obj [("method", Json.str "tools/call")]) =
      .error .attributeError ∧
    ∀ r, check_policy ⟨"cli", "closed"⟩ (.completed 0 (.ok (Json.str "ok")) "")
      (.urlError "") (Json.obj [("method", Json.str "tools/call")]) ≠ .ok r :=
  ⟨rfl, fun _ h => Except.noConfusion h⟩

/-- C5 (amended): on a successful evaluation whose parsed decision is
a JSON object (with an object `hookSpecificOutput` member, if
present), `check_policy` returns allow exactly when
`permissionDecision` is the string `"allow"`; any other value,
including a missing field or a missing `hookSpecificOutput`, yields a
deny whose reason defaults to the generic policy-violation message
when `permissionDecisionReason` is absent. -/
theorem check_policy_decision_interpretation (cfg : Config) (cli : SubprocessOutcome)
    (srv : HttpOutcome) (body : Json) (inp : OpaInput) (fs : List (String × Json))
    (hsub : build_opa_input body = .ok (some inp))
    (hdec : policy_eval cfg cli srv = .ok (Json.obj fs))
    (hhook : ∀ v, lookupField fs "hookSpecificOutput" = some v →
      ∃ gs, v = Json.obj gs) :
    ∃ gs, (lookupField fs "hookSpecificOutput").getD (Json.obj []) = Json.obj gs ∧
      (check_policy cfg cli srv body = .ok none ↔
        lookupField gs "permissionDecision" = some (Json.str "allow")) ∧
      (lookupField gs "permissionDecision" ≠ some (Json.str "allow") →
        check_policy cfg cli srv body = .ok (some ("Policy violation: " ++
          ((lookupField gs "permissionDecisionReason").getD
            (Json.str "Request denied by policy.")).pyStr))) ∧
      (lookupField gs "permissionDecisionReason" = none →
        lookupField gs "permissionDecision" ≠ some (Json.str "allow") →
        check_policy cfg cli srv body =
          .ok (some "Policy violation: Request denied by policy.")) := by
  obtain ⟨gs, hgs⟩ : ∃ gs,
      (lookupField fs "hookSpecificOutput").getD (Json.obj []) = Json.obj gs := by
    cases hv : lookupField fs "hookSpecificOutput" with
    | none => exact ⟨[], rfl⟩
    | some v =>
      obtain ⟨gs, rfl⟩ := hhook v hv
      exact ⟨gs, rfl⟩
  have hcp : check_policy cfg cli srv body =
      if ((lookupField gs "permissionDecision").getD (Json.str "deny")).pyEqStr
          "allow" then .ok none
      else .ok (some ("Policy violation: " ++
        ((lookupField gs "permissionDecisionReason").getD
          (Json.str "Request denied by policy.")).pyStr)) := by
    unfold check_policy
    rw [hsub, hdec]
    dsimp only
    simp only [pyGet]
    rw [hgs]
    simp only [pyGetD]
  have hfalse_of : lookupField gs "permissionDecision" ≠ some (Json.str "allow") →
      (((lookupField gs "permissionDecision").getD
        (Json.str "deny")).pyEqStr "allow") = false := by
    intro hperm
    cases hb : (((lookupField gs "permissionDecision").getD
        (Json.str "deny")).pyEqStr "allow") with
    | false => rfl
    | true =>
      exact absurd ((pyEqStr_getD_iff (lookupField gs "permissionDecision")
        (Json.str "deny") "allow" rfl).mp hb) hperm
  refine ⟨gs, hgs, ?_, ?_, ?_⟩
  · rw [hcp]
    by_cases hperm : lookupField gs "permissionDecision" = some (Json.str "allow")
    · rw [if_pos ((pyEqStr_getD_iff (lookupField gs "permissionDecision")
        (Json.str "deny") "allow" rfl).mpr hperm)]
      simp [hperm]
    · rw [hfalse_of hperm]
      simp [hperm]
  · intro hperm
    rw [hcp, hfalse_of hperm]
    rfl
  · intro hreason hperm
    rw [hcp, hfalse_of hperm, hreason]
    rfl

/-- Witness for C5 (amended): a decision carrying
`permissionDecision = "allow"` is allowed. -/
theorem check_policy_decision_interpretation_witness :
    check_policy ⟨"cli", "closed"⟩
      (.completed 0 (.ok (Json.obj [("hookSpecificOutput",
        Json.obj [("permissionDecision", Json.str "allow")])])) "")
      (.urlError "") (Json.obj [("method", Json.str "tools/call")]) = .ok none := by
  obtain ⟨gs, hgs, hiff, -, -⟩ := check_policy_decision_interpretation
    ⟨"cli", "closed"⟩
    (.completed 0 (.ok (Json.obj [("hookSpecificOutput",
      Json.obj [("permissionDecision", Json.str "allow")])])) "")
    (.urlError "") (Json.obj [("method", Json.str "tools/call")])
    ⟨Json.str "", Json.obj []⟩
    [("hookSpecificOutput", Json.obj [("permissionDecision", Json.str "allow")])]
    rfl rfl
    (fun v hv => ⟨[("permissionDecision", Json.str "allow")],
      (Option.some.inj hv).symm⟩)
  cases Json.obj.inj hgs
  exact hiff.mpr rfl

/-! ## C4: the traffic classifier -/

/-- Membership form of `List.contains` on strings. -/
lemma contains_iff_mem (l : List String) (s : String) :
    l.contains s = true ↔ s ∈ l := List.elem_iff

/-- C4 counterexample: the classifier is not total.  An object with
`jsonrpc == "2.0"` whose `method` value is the (unhashable) JSON array
`[]` makes `method in MCP_METHODS` raise `TypeError`, which the
`except` clause does not catch, so `is_mcp_traffic` raises instead of
returning a boolean. -/
theorem is_mcp_traffic_raises_on_unhashable_method :
    is_mcp_traffic ⟨true, some (Json.obj [("jsonrpc", Json.str "2.0"),
      ("method", Json.arr [])])⟩ = .error .typeError ∧
    ∀ b, is_mcp_traffic ⟨true, some (Json.obj [("jsonrpc", Json.str "2.0"),
      ("method", Json.arr [])])⟩ ≠ .ok b :=
  ⟨rfl, fun _ h => Except.noConfusion h⟩

/-- Computation of the classifier on an object body with
`jsonrpc == "2.0"`. -/
lemma is_mcp_traffic_obj_pos (fs : List (String × Json))
    (h1 : lookupField fs "jsonrpc" = some (Json.str "2.0")) :
    is_mcp_traffic ⟨true, some (Json.obj fs)⟩ =
      (if ((lookupField fs "method").getD (Json.str "")).hashable = false then
        Except.error PyRaise.typeError
      else if (match (lookupField fs "method").getD (Json.str "") with
               | Json.str m => MCP_METHODS.contains m
               | _ => false)
              || (lookupField fs "result").isSome
              || (lookupField fs "error").isSome then Except.ok true
      else Except.ok false) := by
  simp only [is_mcp_traffic]
  rw [h1]
  simp [Json.pyEqStr]

/-- Computation of the classifier on an object body without
`jsonrpc == "2.0"`. -/
lemma is_mcp_traffic_obj_neg (fs : List (String × Json))
    (h1 : lookupField fs "jsonrpc" ≠ some (Json.str "2.0")) :
    is_mcp_traffic ⟨true, some (Json.obj fs)⟩ = .ok false := by
  have hcond : ((lookupField fs "jsonrpc").isSome &&
      ((lookupField fs "jsonrpc").getD Json.null).pyEqStr "2.0") = false := by
    cases hb : ((lookupField fs "jsonrpc").isSome &&
        ((lookupField fs "jsonrpc").getD Json.null).pyEqStr "2.0") with
    | false => rfl
    | true => exact absurd ((jsonrpc_cond_iff (lookupField fs "jsonrpc")).mp hb) h1
  simp only [is_mcp_traffic]
  rw [hcond]
  rfl

/-- C4 (amended): `is_mcp_traffic` never raises except when the bytes
parse as a JSON object with `jsonrpc == "2.0"` whose `method` value is
an unhashable JSON value (array or object), where it raises
`TypeError`; on every other input it returns `true` exactly when the
bytes parse as an object with `jsonrpc == "2.0"` and (a string
`method` in the known set, or a `result` or `error` key), or as a
non-empty array whose first element is an object with
`jsonrpc == "2.0"`; empty input, unparseable input and every other
JSON value yield `false`. -/
theorem is_mcp_traffic_characterization (content : Content)
    (hwf : content.nonempty = false → content.parsed = none) :
    (is_mcp_traffic content = .ok true ↔
      ((∃ fs, content.parsed = some (Json.obj fs) ∧
        lookupField fs "jsonrpc" = some (Json.str "2.0") ∧
        ((lookupField fs "method").getD (Json.str "")).hashable = true ∧
        ((∃ m, (lookupField fs "method").getD (Json.str "") = Json.str m ∧
            m ∈ MCP_METHODS) ∨
          (lookupField fs "result").isSome = true ∨
          (lookupField fs "error").isSome = true)) ∨
      (∃ gs rest, content.parsed = some (Json.arr (Json.obj gs :: rest)) ∧
        lookupField gs "jsonrpc" = some (Json.str "2.0")))) ∧
    (∀ e : PyRaise, is_mcp_traffic content = .error e ↔
      (e = .typeError ∧ ∃ fs, content.parsed = some (Json.obj fs) ∧
        lookupField fs "jsonrpc" = some (Json.str "2.0") ∧
        ((lookupField fs "method").getD (Json.str "")).hashable = false)) := by
  obtain ⟨ne, parsed⟩ := content
  cases ne with
  | false =>
    cases hp : parsed with
    | none =>
      subst hp
      refine ⟨iff_of_false (fun h => Bool.noConfusion (Except.ok.inj h)) ?_,
        fun e => iff_of_false (fun h => Except.noConfusion h) ?_⟩
      · rintro (⟨fs, habs, -⟩ | ⟨gs, rest, habs, -⟩) <;> exact Option.noConfusion habs
      · rintro ⟨-, fs, habs, -⟩; exact Option.noConfusion habs
    | some j => exact absurd (hwf rfl) (by rw [hp]; exact fun hh => Option.noConfusion hh)
  | true =>
    cases parsed with
    | none =>
      refine ⟨iff_of_false (fun h => Bool.noConfusion (Except.ok.inj h)) ?_,
        fun e => iff_of_false (fun h => Except.noConfusion h) ?_⟩
      · rintro (⟨fs, habs, -⟩ | ⟨gs, rest, habs, -⟩) <;> exact Option.noConfusion habs
      · rintro ⟨-, fs, habs, -⟩; exact Option.noConfusion habs
    | some j =>
      cases j with
      | null =>
        refine ⟨iff_of_false (fun h => Bool.noConfusion (Except.ok.inj h)) ?_,
          fun e => iff_of_false (fun h => Except.noConfusion h) ?_⟩
        · rintro (⟨fs, habs, -⟩ | ⟨gs, rest, habs, -⟩) <;>
            exact Json.noConfusion (Option.some.inj habs)
        · rintro ⟨-, fs, habs, -⟩; exact Json.noConfusion (Option.some.inj habs)
      | bool b =>
        refine ⟨iff_of_false (fun h => Bool.noConfusion (Except.ok.inj h)) ?_,
          fun e => iff_of_false (fun h => Except.noConfusion h) ?_⟩
        · rintro (⟨fs, habs, -⟩ | ⟨gs, rest, habs, -⟩) <;>
            exact Json.noConfusion (Option.some.inj habs)
        · rintro ⟨-, fs, habs, -⟩; exact Json.noConfusion (Option.some.inj habs)
      | num n =>
        refine ⟨iff_of_false (fun h => Bool.noConfusion (Except.ok.inj h)) ?_,
          fun e => iff_of_false (fun h => Except.noConfusion h) ?_⟩
        · rintro (⟨fs, habs, -⟩ | ⟨gs, rest, habs, -⟩) <;>
            exact Json.noConfusion (Option.some.inj habs)
        · rintro ⟨-, fs, habs, -⟩; exact Json.noConfusion (Option.some.inj habs)
      | str s =>
        refine ⟨iff_of_false (fun h => Bool.noConfusion (Except.ok.inj h)) ?_,
          fun e => iff_of_false (fun h => Except.noConfusion h) ?_⟩
        · rintro (⟨fs, habs, -⟩ | ⟨gs, rest, habs, -⟩) <;>
            exact Json.noConfusion (Option.some.inj habs)
        · rintro ⟨-, fs, habs, -⟩; exact Json.noConfusion (Option.some.inj habs)
      | arr elems =>
        cases elems with
        | nil =>
          refine ⟨iff_of_false (fun h => Bool.noConfusion (Except.ok.inj h)) ?_,
            fun e => iff_of_false (fun h => Except.noConfusion h) ?_⟩
          · rintro (⟨fs, habs, -⟩ | ⟨gs, rest, habs, -⟩)
            · exact Json.noConfusion (Option.some.inj habs)
            · exact List.noConfusion (Json.arr.inj (Option.some.inj habs))
          · rintro ⟨-, fs, habs, -⟩; exact Json.noConfusion (Option.some.inj habs)
        | cons first rest =>
          cases first with
          | obj gs =>
            constructor
            · constructor
              · intro h
                exact Or.inr ⟨gs, rest, rfl,
                  (pyEqStr_getD_null_iff (lookupField gs "jsonrpc") "2.0").mp
                    (Except.ok.inj h)⟩
              · rintro (⟨fs2, habs, -⟩ | ⟨gs2, rest2, heq, hjr⟩)
                · exact Json.noConfusion (Option.some.inj habs)
                · obtain ⟨h3, h4⟩ := List.cons.inj (Json.arr.inj (Option.some.inj heq))
                  cases Json.obj.inj h3
                  show Except.ok (((lookupField gs "jsonrpc").getD
                    Json.null).pyEqStr "2.0") = Except.ok true
                  rw [(pyEqStr_getD_null_iff (lookupField gs "jsonrpc") "2.0").mpr hjr]
            · intro e
              refine iff_of_false (fun h => Except.noConfusion h) ?_
              rintro ⟨-, fs2, habs, -⟩
              exact Json.noConfusion (Option.some.inj habs)
          | null =>
            refine ⟨iff_of_false (fun h => Bool.noConfusion (Except.ok.inj h)) ?_,
              fun e => iff_of_false (fun h => Except.noConfusion h) ?_⟩
            · rintro (⟨fs2, habs, -⟩ | ⟨gs2, rest2, heq, -⟩)
              · exact Json.noConfusion (Option.some.inj habs)
              · exact Json.noConfusion
                  (List.cons.inj (Json.arr.inj (Option.some.inj heq))).1
            · rintro ⟨-, fs2, habs, -⟩; exact Json.noConfusion (Option.some.inj habs)
          | bool b =>
            refine ⟨iff_of_false (fun h => Bool.noConfusion (Except.ok.inj h)) ?_,
              fun e => iff_of_false (fun h => Except.noConfusion h) ?_⟩
            · rintro (⟨fs2, habs, -⟩ | ⟨gs2, rest2, heq, -⟩)
              · exact Json.noConfusion (Option.some.inj habs)
              · exact Json.noConfusion
                  (List.cons.inj (Json.arr.inj (Option.some.inj heq))).1
            · rintro ⟨-, fs2, habs, -⟩; exact Json.noConfusion (Option.some.inj habs)
          | num n =>
            refine ⟨iff_of_false (fun h => Bool.noConfusion (Except.ok.inj h)) ?_,
              fun e => iff_of_false (fun h => Except.noConfusion h) ?_⟩
            · rintro (⟨fs2, habs, -⟩ | ⟨gs2, rest2, heq, -⟩)
              · exact Json.noConfusion (Option.some.inj habs)
              · exact Json.noConfusion
                  (List.cons.inj (Json.arr.inj (Option.some.inj heq))).1
            · rintro ⟨-, fs2, habs, -⟩; exact Json.noConfusion (Option.some.inj habs)
          | str s =>
            refine ⟨iff_of_false (fun h => Bool.noConfusion (Except.ok.inj h)) ?_,
              fun e => iff_of_false (fun h => Except.noConfusion h) ?_⟩
            · rintro (⟨fs2, habs, -⟩ | ⟨gs2, rest2, heq, -⟩)
              · exact Json.noConfusion (Option.some.inj habs)
              · exact Json.noConfusion
                  (List.cons.inj (Json.arr.inj (Option.some.inj heq))).1
            · rintro ⟨-, fs2, habs, -⟩; exact Json.noConfusion (Option.some.inj habs)
          | arr xs =>
            refine ⟨iff_of_false (fun h => Bool.noConfusion (Except.ok.inj h)) ?_,
              fun e => iff_of_false (fun h => Except.noConfusion h) ?_⟩
            · rintro (⟨fs2, habs, -⟩ | ⟨gs2, rest2, heq, -⟩)
              · exact Json.noConfusion (Option.some.inj habs)
              · exact Json.noConfusion
                  (List.cons.inj (Json.arr.inj (Option.some.inj heq))).1
            · rintro ⟨-, fs2, habs, -⟩; exact Json.noConfusion (Option.some.inj habs)
      | obj fs =>
        by_cases h1 : lookupField fs "jsonrpc" = some (Json.str "2.0")
        · rw [is_mcp_traffic_obj_pos fs h1]
          by_cases h2 : ((lookupField fs "method").getD (Json.str "")).hashable = false
          · rw [if_pos h2]
            constructor
            · refine iff_of_false (fun h => Except.noConfusion h) ?_
              rintro (⟨fs2, heq, -, hh, -⟩ | ⟨gs2, rest2, habs, -⟩)
              · cases Json.obj.inj (Option.some.inj heq)
                rw [h2] at hh
                exact Bool.noConfusion hh
              · exact Json.noConfusion (Option.some.inj habs)
            · intro e
              constructor
              · intro h
                exact ⟨(Except.error.inj h).symm, fs, rfl, h1, h2⟩
              · rintro ⟨rfl, -⟩
                rfl
          · rw [if_neg h2]
            have h2t : ((lookupField fs "method").getD (Json.str "")).hashable = true := by
              cases hb : ((lookupField fs "method").getD (Json.str "")).hashable with
              | false => exact absurd hb h2
              | true => rfl
            by_cases h3 : ((match (lookupField fs "method").getD (Json.str "") with
                | Json.str m => MCP_METHODS.contains m
                | _ => false)
                || (lookupField fs "result").isSome
                || (lookupField fs "error").isSome) = true
            · rw [if_pos h3]
              constructor
              · refine iff_of_true rfl (Or.inl ⟨fs, rfl, h1, h2t, ?_⟩)
                simp only [Bool.or_eq_true] at h3
                rcases h3 with (h5 | h5) | h4
                · refine Or.inl ?_
                  cases hmv : (lookupField fs "method").getD (Json.str "") with
                  | str m =>
                    rw [hmv] at h5
                    exact ⟨m, rfl, (contains_iff_mem MCP_METHODS m).mp h5⟩
                  | null => rw [hmv] at h5; exact Bool.noConfusion h5
                  | bool b => rw [hmv] at h5; exact Bool.noConfusion h5
                  | num n => rw [hmv] at h5; exact Bool.noConfusion h5
                  | arr xs => rw [hmv] at h5; exact Bool.noConfusion h5
                  | obj os => rw [hmv] at h5; exact Bool.noConfusion h5
                · exact Or.inr (Or.inl h5)
                · exact Or.inr (Or.inr h4)
              · intro e
                refine iff_of_false (fun h => Except.noConfusion h) ?_
                rintro ⟨-, fs2, heq, -, hh⟩
                cases Json.obj.inj (Option.some.inj heq)
                rw [h2t] at hh
                exact Bool.noConfusion hh
            · rw [if_neg h3]
              constructor
              · refine iff_of_false (fun h => Bool.noConfusion (Except.ok.inj h)) ?_
                rintro (⟨fs2, heq, -, -, hdisj⟩ | ⟨gs2, rest2, habs, -⟩)
                · cases Json.obj.inj (Option.some.inj heq)
                  refine h3 ?_
                  simp only [Bool.or_eq_true]
                  rcases hdisj with ⟨m, hm, hmem⟩ | h4 | h4
                  · exact Or.inl (Or.inl
                      (by rw [hm]; exact (contains_iff_mem MCP_METHODS m).mpr hmem))
                  · exact Or.inl (Or.inr h4)
                  · exact Or.inr h4
                · exact Json.noConfusion (Option.some.inj habs)
              · intro e
                refine iff_of_false (fun h => Except.noConfusion h) ?_
                rintro ⟨-, fs2, heq, -, hh⟩
                cases Json.obj.inj (Option.some.inj heq)
                rw [h2t] at hh
                exact Bool.noConfusion hh
        · rw [is_mcp_traffic_obj_neg fs h1]
          constructor
          · refine iff_of_false (fun h => Bool.noConfusion (Except.ok.inj h)) ?_
            rintro (⟨fs2, heq, hjr, -⟩ | ⟨gs2, rest2, habs, -⟩)
            · cases Json.obj.inj (Option.some.inj heq)
              exact h1 hjr
            · exact Json.noConfusion (Option.some.inj habs)
          · intro e
            refine iff_of_false (fun h => Except.noConfusion h) ?_
            rintro ⟨-, fs2, heq, hjr, -⟩
            cases Json.obj.inj (Option.some.inj heq)
            exact h1 hjr

/-- Witness for C4 (amended): a `tools/call` request object is
classified as MCP traffic. -/
theorem is_mcp_traffic_characterization_witness :
    is_mcp_traffic ⟨true, some (Json.obj [("jsonrpc", Json.str "2.0"),
      ("method", Json.str "tools/call")])⟩ = .ok true :=
  (is_mcp_traffic_characterization
    ⟨true, some (Json.obj [("jsonrpc", Json.str "2.0"),
      ("method", Json.str "tools/call")])⟩
    (fun h => Bool.noConfusion h)).1.mpr
    (Or.inl ⟨[("jsonrpc", Json.str "2.0"), ("method", Json.str "tools/call")],
      rfl, rfl, rfl, Or.inl ⟨"tools/call", rfl, by decide⟩⟩)
